import Mathlib

/-!
Shallow embedding of the vote lifecycle engine of the greenfield-challenger
repository: the vote broadcaster (vote/vote_broadcaster.go), the vote collator
(vote/vote_collator.go) and the validator-cache part of the executor
(executor/executor.go).

External collaborators (DAO manager, DataProvider, chain RPC) are modelled as
explicit oracle inputs: every call a loop iteration makes to a collaborator is
one field of an environment record, and store mutations are explicit state
passing over an association list keyed by challenge id.
-/

namespace Greenfield

/-- Event status stored for a challenge event. `Open` is the initial pending
status from the spec; `EnoughVotesCollected` and `Expired` are the two statuses
written by the vote package (model.EnoughVotesCollected, model.Expired). -/
inductive EventStatus where
  | Open
  | EnoughVotesCollected
  | Expired
  deriving DecidableEq, Repr

/-- A challenge event as used by the vote package: challenge id, the height at
which it was raised, and the absolute expiry height. -/
structure Event where
  challengeId : Nat
  height : Nat
  expiredHeight : Nat
  deriving DecidableEq, Repr

/-- A vote in the vote pool: event type tag, event hash, signer public key.
Signature bytes are determined by the hash and key (deterministic BLS), so we
do not carry them separately. -/
structure Vote where
  eventType : Nat
  eventHash : Nat × Nat × Nat
  pubKey : Nat
  deriving DecidableEq, Repr

/-- Modelled from the spec: the votepool event-type tag
DataAvailabilityChallengeEvent; its numeric value is opaque to this core. -/
def DataAvailabilityChallengeEvent : Nat := 3

/-- Modelled from the spec: CalculateEventHash is not under src; the spec says
the event hash is a deterministic, status-independent hash of the event's
semantically meaningful fields, so we model it as the tuple of those fields. -/
def CalculateEventHash (e : Event) : Nat × Nat × Nat :=
  (e.challengeId, e.height, e.expiredHeight)

/-- Modelled from the spec: VoteSigner.SignVote is not under src; it signs the
given hash with the node BLS key and attaches the node public key. -/
def SignVote (pubKey : Nat) (v : Vote) (hash : Nat × Nat × Nat) : Vote :=
  { v with eventHash := hash, pubKey := pubKey }

/-- Association-list lookup, mirroring Go map indexing (absent key gives the
zero value, i.e. `none` for a pointer). -/
def lookupM {α : Type} : List (Nat × α) → Nat → Option α
  | [], _ => none
  | (k, v) :: rest, key => if k = key then some v else lookupM rest key

/-- Association-list key removal, mirroring Go map `delete`. -/
def eraseM {α : Type} : List (Nat × α) → Nat → List (Nat × α)
  | [], _ => []
  | (k, v) :: rest, key =>
      if k = key then eraseM rest key else (k, v) :: eraseM rest key

/-- Helper for substring search: whether the first list is an initial segment
of the second. -/
def startsWithList : List Char → List Char → Bool
  | [], _ => true
  | _ :: _, [] => false
  | a :: pat, b :: rest => a == b && startsWithList pat rest

/-- Helper for substring search: whether the first list occurs contiguously
inside the second. -/
def occursInList : List Char → List Char → Bool
  | pat, [] => startsWithList pat []
  | pat, b :: rest => startsWithList pat (b :: rest) || occursInList pat rest

/-- Go strings.Contains, used by the broadcaster to classify persistence
errors by their message text. -/
def strContains (s sub : String) : Bool := occursInList sub.toList s.toList

/-- Errors surfaced inside the vote package. common.ErrEventExpired is compared
by message equality in the source, which we model as constructor equality; DAO
save errors carry the message string the broadcaster inspects. -/
inductive GoErr where
  | errEventExpired
  | updateStatusFailed (challengeId : Nat)
  | broadcastFailed (challengeId : Nat)
  | validatorsErr
  | queryVotesErr
  | notEnoughVotes (challengeId : Nat)
  deriving DecidableEq, Repr

/-- preCheck of both the broadcaster and the collator: compare the cached
current height against the event expiry height. -/
def preCheck (currentHeight : Nat) (event : Event) : Option GoErr :=
  if currentHeight > event.expiredHeight then some GoErr.errEventExpired else none

/-- The persistent event-status store, keyed by challenge id. -/
abbrev Store : Type := List (Nat × EventStatus)

/-- Modelled from the spec: dao.UpdateEventStatusByChallengeId and the
DataProvider UpdateEventStatus are not under src; they durably set the status
of the event with the given challenge id. -/
def updateEventStatusByChallengeId (store : Store) (cid : Nat) (st : EventStatus) : Store :=
  (cid, st) :: eraseM store cid

/-- Kinds of sleep call the loops perform: the fixed RetryInterval backoff and
the 50ms inter-event pacing delay. -/
inductive SleepKind where
  | retryInterval
  | pacing50ms
  deriving DecidableEq, Repr

/-- Control outcome of one loop-body execution: the source loops contain no
break or return, so a faithful body can only yield `next`. -/
inductive LoopControl where
  | next
  | terminate
  deriving DecidableEq, Repr

/-- constructVoteAndSign: build the vote, sign the event hash, then attempt the
DAO save (SaveVoteAndUpdateEventStatus, an external call whose outcome is the
`persistRes` oracle: `none` is success, `some msg` an error with message
`msg`). The source returns the vote pointer even on error. -/
def constructVoteAndSign (pubKey : Nat) (event : Event) (persistRes : Option String) :
    Vote × Option String :=
  let v : Vote := { eventType := DataAvailabilityChallengeEvent, eventHash := (0, 0, 0), pubKey := 0 }
  let v := SignVote pubKey v (CalculateEventHash event)
  (v, persistRes)

/-- The locally signed vote the broadcaster produces for an event. -/
def mkLocalVote (pubKey : Nat) (event : Event) : Vote :=
  (constructVoteAndSign pubKey event none).1

/-- Oracle responses consumed while the broadcaster handles one event. -/
structure BroadcastEventEnv where
  persistRes : Option String
  currentHeight : Nat
  updateOk : Bool
  broadcastOk : Bool

/-- Result of broadcastForSingleEvent: the store and cache after the call and
the returned error. -/
structure SingleCastResult where
  store : Store
  cache : List (Nat × Vote)
  err : Option GoErr
  deriving DecidableEq, Repr

/-- broadcastForSingleEvent: pre-check expiry; on expiry update the status to
Expired and evict the cache entry (returning the update error, which is `none`
on success); otherwise broadcast the cached vote to the vote pool. -/
def broadcastForSingleEvent (env : BroadcastEventEnv) (store : Store)
    (cache : List (Nat × Vote)) (localVote : Vote) (event : Event) : SingleCastResult :=
  match preCheck env.currentHeight event with
  | some e =>
      if e = GoErr.errEventExpired then
        if env.updateOk then
          { store := updateEventStatusByChallengeId store event.challengeId EventStatus.Expired
            cache := eraseM cache event.challengeId
            err := none }
        else
          { store := store, cache := cache
            err := some (GoErr.updateStatusFailed event.challengeId) }
      else
        { store := store, cache := cache, err := some e }
  | none =>
      if env.broadcastOk then
        { store := store, cache := cache, err := none }
      else
        { store := store, cache := cache, err := some (GoErr.broadcastFailed event.challengeId) }

/-- Result of the broadcaster loop body for one fetched event. `signed` records
whether constructVoteAndSign ran (one signature request); `passedToBroadcast`
is the vote handed to broadcastForSingleEvent, `none` when the event was
skipped before that call. -/
structure HandleEventResult where
  store : Store
  cache : List (Nat × Vote)
  signed : Bool
  passedToBroadcast : Option Vote
  sleeps : List SleepKind
  deriving DecidableEq, Repr

/-- One pass of the broadcaster per-event body (lines 58-78 of the source):
cache lookup, sign-and-persist on a miss with duplicate-tolerant error
handling, then broadcastForSingleEvent and the pacing sleep on success. -/
def handleEvent (pubKey : Nat) (env : BroadcastEventEnv) (store : Store)
    (cache : List (Nat × Vote)) (event : Event) : HandleEventResult :=
  match lookupM cache event.challengeId with
  | some localVote =>
      let r := broadcastForSingleEvent env store cache localVote event
      { store := r.store, cache := r.cache, signed := false
        passedToBroadcast := some localVote
        sleeps := if r.err = none then [SleepKind.pacing50ms] else [] }
  | none =>
      let vr := constructVoteAndSign pubKey event env.persistRes
      match vr.2 with
      | some msg =>
          if strContains msg ("Duplicate") then
            let cache1 := (event.challengeId, vr.1) :: cache
            let r := broadcastForSingleEvent env store cache1 vr.1 event
            { store := r.store, cache := r.cache, signed := true
              passedToBroadcast := some vr.1
              sleeps := if r.err = none then [SleepKind.pacing50ms] else [] }
          else
            { store := store, cache := cache, signed := true
              passedToBroadcast := none, sleeps := [] }
      | none =>
          let cache1 := (event.challengeId, vr.1) :: cache
          let r := broadcastForSingleEvent env store cache1 vr.1 event
          { store := r.store, cache := r.cache, signed := true
            passedToBroadcast := some vr.1
            sleeps := if r.err = none then [SleepKind.pacing50ms] else [] }

/-- Accumulated result of the broadcaster inner for-loop over the fetched
events. -/
structure EventLoopResult where
  store : Store
  cache : List (Nat × Vote)
  sleeps : List SleepKind
  signedIds : List Nat
  handled : Nat
  deriving DecidableEq, Repr

/-- The broadcaster inner for-loop: events are handled sequentially in fetch
order; an erroring event only skips its own pacing sleep, never the rest of
the list. The `idx`-th event consumes the `idx`-th oracle environment. -/
def runEventLoop (pubKey : Nat) (eventEnv : Nat → BroadcastEventEnv) (idx : Nat)
    (store : Store) (cache : List (Nat × Vote)) : List Event → EventLoopResult
  | [] => { store := store, cache := cache, sleeps := [], signedIds := [], handled := 0 }
  | e :: rest =>
      let r := handleEvent pubKey (eventEnv idx) store cache e
      let t := runEventLoop pubKey eventEnv (idx + 1) r.store r.cache rest
      { store := t.store, cache := t.cache, sleeps := r.sleeps ++ t.sleeps
        signedIds := (if r.signed then [e.challengeId] else []) ++ t.signedIds
        handled := t.handled + 1 }

/-- Oracle responses consumed by one broadcaster outer-loop iteration:
the FetchEventsForSelfVote result (`none` is a fetch error) and the per-event
environments. -/
structure BIterEnv where
  fetchRes : Option (List Event)
  eventEnv : Nat → BroadcastEventEnv

/-- Mutable state owned by the broadcaster loop: local vote cache, the durable
store, and broadcastLoopCount. -/
structure BIterState where
  cache : List (Nat × Vote)
  store : Store
  loopCount : Nat
  deriving DecidableEq, Repr

/-- Observable result of one broadcaster outer-loop iteration. -/
structure BIterResult where
  state : BIterState
  sleeps : List SleepKind
  signedIds : List Nat
  handled : Nat
  control : LoopControl
  deriving DecidableEq, Repr

/-- One iteration of BroadcastVotesLoop, N standing for
common.CacheClearIterations: fetch error continues immediately with no sleep;
an empty fetch sleeps RetryInterval; otherwise the event loop runs, the
iteration counter advances, and when it reaches N the whole cache is cleared
and the counter reset, followed by the RetryInterval sleep. -/
def broadcastIteration (pubKey N : Nat) (env : BIterEnv) (s : BIterState) : BIterResult :=
  match env.fetchRes with
  | none =>
      { state := s, sleeps := [], signedIds := [], handled := 0, control := LoopControl.next }
  | some events =>
      if events.length = 0 then
        { state := s, sleeps := [SleepKind.retryInterval], signedIds := [], handled := 0
          control := LoopControl.next }
      else
        let t := runEventLoop pubKey env.eventEnv 0 s.store s.cache events
        let count1 := s.loopCount + 1
        let cache1 := if count1 = N then ([] : List (Nat × Vote)) else t.cache
        let count2 := if count1 = N then 0 else count1
        { state := { cache := cache1, store := t.store, loopCount := count2 }
          sleeps := t.sleeps ++ [SleepKind.retryInterval]
          signedIds := t.signedIds
          handled := t.handled
          control := LoopControl.next }

/-- k successive broadcaster iterations, iteration i consuming environment
`envs i` (iteration 0 first). -/
def runBroadcastIters (pubKey N : Nat) (envs : Nat → BIterEnv) (s : BIterState) :
    Nat → BIterState
  | 0 => s
  | k + 1 => (broadcastIteration pubKey N (envs k) (runBroadcastIters pubKey N envs s k)).state

/-- Oracle responses consumed while the collator handles one event: the cached
heights read by the outer and the inner preCheck, the cached validator set,
the outcome of the Expired status update, the GetVotesByEventHash result, and
the outcome of the EnoughVotesCollected status update. -/
structure CollateEventEnv where
  preHeight : Nat
  innerHeight : Nat
  validatorsRes : Option (List Nat)
  expiredUpdateOk : Bool
  queryVotesRes : Option (List Vote)
  collectedUpdateOk : Bool

/-- Result of a collator step on one event: the store afterwards, the returned
error, whether the vote-count query was performed, and sleeps done inside. -/
structure CollateStepResult where
  store : Store
  err : Option GoErr
  votesQueried : Bool
  sleeps : List SleepKind
  deriving DecidableEq, Repr

/-- queryMoreThanTwoThirdVotesForEvent: re-run preCheck (on a freshly read
cached height); on expiry update the status to Expired and return that update
call's error, which is `none` on success; otherwise query the persisted votes
for the event hash and succeed exactly when strictly more than
len(validators)*2/3 votes exist, else sleep RetryInterval and fail. -/
def queryMoreThanTwoThirdVotesForEvent (env : CollateEventEnv) (store : Store)
    (event : Event) (validators : List Nat) : CollateStepResult :=
  match preCheck env.innerHeight event with
  | some e =>
      if e = GoErr.errEventExpired then
        if env.expiredUpdateOk then
          { store := updateEventStatusByChallengeId store event.challengeId EventStatus.Expired
            err := none, votesQueried := false, sleeps := [] }
        else
          { store := store, err := some (GoErr.updateStatusFailed event.challengeId)
            votesQueried := false, sleeps := [] }
      else
        { store := store, err := some e, votesQueried := false, sleeps := [] }
  | none =>
      match env.queryVotesRes with
      | none =>
          { store := store, err := some GoErr.queryVotesErr, votesQueried := true, sleeps := [] }
      | some queriedVotes =>
          if queriedVotes.length > validators.length * 2 / 3 then
            { store := store, err := none, votesQueried := true, sleeps := [] }
          else
            { store := store, err := some (GoErr.notEnoughVotes event.challengeId)
              votesQueried := true, sleeps := [SleepKind.retryInterval] }

/-- prepareEnoughValidVotesForEvent: fetch the cached validator set; a set of
exactly one validator trivially succeeds with no vote query; otherwise defer
to the two-thirds count. -/
def prepareEnoughValidVotesForEvent (env : CollateEventEnv) (store : Store)
    (event : Event) : CollateStepResult :=
  match env.validatorsRes with
  | none =>
      { store := store, err := some GoErr.validatorsErr, votesQueried := false, sleeps := [] }
  | some validators =>
      if validators.length = 1 then
        { store := store, err := none, votesQueried := false, sleeps := [] }
      else
        queryMoreThanTwoThirdVotesForEvent env store event validators

/-- collateForSingleEvent: outer preCheck (returning the bare error on expiry,
with no store change), then prepareEnoughValidVotesForEvent, then on success
the UpdateEventStatus call marking the event EnoughVotesCollected. -/
def collateForSingleEvent (env : CollateEventEnv) (store : Store) (event : Event) :
    CollateStepResult :=
  match preCheck env.preHeight event with
  | some e =>
      { store := store, err := some e, votesQueried := false, sleeps := [] }
  | none =>
      let r := prepareEnoughValidVotesForEvent env store event
      match r.err with
      | some e => { store := r.store, err := some e, votesQueried := r.votesQueried, sleeps := r.sleeps }
      | none =>
          if env.collectedUpdateOk then
            { store := updateEventStatusByChallengeId r.store event.challengeId
                EventStatus.EnoughVotesCollected
              err := none, votesQueried := r.votesQueried, sleeps := r.sleeps }
          else
            { store := r.store, err := some (GoErr.updateStatusFailed event.challengeId)
              votesQueried := r.votesQueried, sleeps := r.sleeps }

/-- Accumulated result of the collator inner for-loop over the fetched
events. -/
structure CollateLoopResult where
  store : Store
  sleeps : List SleepKind
  handled : Nat
  deriving DecidableEq, Repr

/-- The collator inner for-loop: each erroring event sleeps RetryInterval and
processing continues with the next event; a successful event sleeps the 50ms
pacing delay. -/
def runCollateEvents (eventEnv : Nat → CollateEventEnv) (idx : Nat) (store : Store) :
    List Event → CollateLoopResult
  | [] => { store := store, sleeps := [], handled := 0 }
  | e :: rest =>
      let r := collateForSingleEvent (eventEnv idx) store e
      let sl := r.sleeps ++
        (if r.err = none then [SleepKind.pacing50ms] else [SleepKind.retryInterval])
      let t := runCollateEvents eventEnv (idx + 1) r.store rest
      { store := t.store, sleeps := sl ++ t.sleeps, handled := t.handled + 1 }

/-- Oracle responses consumed by one collator outer-loop iteration. -/
structure CIterEnv where
  fetchRes : Option (List Event)
  eventEnv : Nat → CollateEventEnv

/-- Observable result of one collator outer-loop iteration. -/
structure CIterResult where
  store : Store
  sleeps : List SleepKind
  handled : Nat
  control : LoopControl
  deriving DecidableEq, Repr

/-- One iteration of CollateVotesLoop: fetch error or empty fetch sleeps
RetryInterval and continues; otherwise the event loop runs, followed by the
RetryInterval sleep. -/
def collateIteration (env : CIterEnv) (store : Store) : CIterResult :=
  match env.fetchRes with
  | none =>
      { store := store, sleeps := [SleepKind.retryInterval], handled := 0
        control := LoopControl.next }
  | some events =>
      if events.length = 0 then
        { store := store, sleeps := [SleepKind.retryInterval], handled := 0
          control := LoopControl.next }
      else
        let t := runCollateEvents env.eventEnv 0 store events
        { store := t.store, sleeps := t.sleeps ++ [SleepKind.retryInterval]
          handled := t.handled, control := LoopControl.next }

/-- State of the executor relevant to the validator cache: the `validators`
field written only by UpdateCachedLatestValidatorsLoop. -/
structure ExecutorState where
  validators : List Nat
  deriving DecidableEq, Repr

/-- Result of QueryCachedLatestValidators: returned value, executor state
afterwards, and whether a fresh RPC validator query happened. -/
structure QueryValidatorsResult where
  res : Option (List Nat)
  state : ExecutorState
  freshQueried : Bool
  deriving DecidableEq, Repr

/-- QueryCachedLatestValidators: return the cached set when it is non-empty;
otherwise perform the fresh query (whose outcome is the `freshRes` oracle) and
return its result without writing the cache field. -/
def QueryCachedLatestValidators (s : ExecutorState) (freshRes : Option (List Nat)) :
    QueryValidatorsResult :=
  if s.validators.length ≠ 0 then
    { res := some s.validators, state := s, freshQueried := false }
  else
    match freshRes with
    | none => { res := none, state := s, freshQueried := true }
    | some vs => { res := some vs, state := s, freshQueried := true }

/-- One tick of UpdateCachedLatestValidatorsLoop: a failing fresh query leaves
the cache unchanged; a successful one overwrites it. -/
def updateCachedValidatorsStep (s : ExecutorState) (freshRes : Option (List Nat)) :
    ExecutorState :=
  match freshRes with
  | none => s
  | some vs => { validators := vs }

/-! Concrete probe values used by counterexamples and witnesses. -/

/-- A default per-event broadcaster environment. -/
def bEnvDefault : BroadcastEventEnv :=
  { persistRes := none, currentHeight := 0, updateOk := true, broadcastOk := true }

/-- A broadcaster iteration environment whose event fetch fails. -/
def bEnvFetchErr : BIterEnv := { fetchRes := none, eventEnv := fun _ => bEnvDefault }

/-- The broadcaster start state: empty cache, empty store, counter zero. -/
def bState0 : BIterState := { cache := [], store := [], loopCount := 0 }

/-- Probe event for the collator expiry divergence. -/
def evC2 : Event := { challengeId := 7, height := 0, expiredHeight := 100 }

/-- Collator environment in which the outer pre-check already sees the event
expired (cached height 101 against expiry 100) and every store call succeeds. -/
def cEnvC2 : CollateEventEnv :=
  { preHeight := 101, innerHeight := 101, validatorsRes := some [0, 1, 2]
    expiredUpdateOk := true, queryVotesRes := some [], collectedUpdateOk := true }

/-- Probe event for the terminal-state violation. -/
def evC5 : Event := { challengeId := 9, height := 0, expiredHeight := 100 }

/-- Collator environment in which the outer pre-check passes at height 100 but
the cached height has advanced to 101 by the inner pre-check. -/
def cEnvC5 : CollateEventEnv :=
  { preHeight := 100, innerHeight := 101, validatorsRes := some [0, 1, 2]
    expiredUpdateOk := true, queryVotesRes := some [], collectedUpdateOk := true }

/-- Probe event for the single-validator trivial quorum. -/
def evC8 : Event := { challengeId := 3, height := 0, expiredHeight := 500 }

/-- Collator environment with a one-member cached validator set. -/
def cEnvC8 : CollateEventEnv :=
  { preHeight := 400, innerHeight := 400, validatorsRes := some [11]
    expiredUpdateOk := true, queryVotesRes := none, collectedUpdateOk := true }

/-- C2: evaluation of the code at the failing input. When the collator's outer
pre-check already sees the event expired (height 101 > expiredHeight 100),
collateForSingleEvent returns ErrEventExpired with the store untouched: the
event status stays Open, it is never marked Expired, and no vote query is
performed — contradicting the claim that the collator transitions the event to
Expired in this case. -/
theorem collator_expiry_precheck_no_transition :
    cEnvC2.preHeight > evC2.expiredHeight ∧
    (collateForSingleEvent cEnvC2 [(7, EventStatus.Open)] evC2).store =
      [(7, EventStatus.Open)] ∧
    (collateForSingleEvent cEnvC2 [(7, EventStatus.Open)] evC2).votesQueried = false ∧
    (collateForSingleEvent cEnvC2 [(7, EventStatus.Open)] evC2).err =
      some GoErr.errEventExpired := by
  decide

/-- C5: evaluation of the code at the failing input. When expiry is first
detected at the inner pre-check (outer pre-check at height 100, inner at 101),
queryMoreThanTwoThirdVotesForEvent marks the event Expired and returns nil, so
collateForSingleEvent then overwrites the terminal Expired status with
EnoughVotesCollected in the same call — a transition out of a terminal state,
contradicting the forward-only claim. -/
theorem collator_leaves_terminal_state :
    lookupM (queryMoreThanTwoThirdVotesForEvent cEnvC5 [(9, EventStatus.Open)] evC5
      [0, 1, 2]).store 9 = some EventStatus.Expired ∧
    (queryMoreThanTwoThirdVotesForEvent cEnvC5 [(9, EventStatus.Open)] evC5
      [0, 1, 2]).err = none ∧
    lookupM (collateForSingleEvent cEnvC5 [(9, EventStatus.Open)] evC5).store 9 =
      some EventStatus.EnoughVotesCollected := by
  decide

/-- C3 counterexample: in the broadcaster iteration whose event fetch fails,
no RetryInterval sleep is performed at all — the loop re-queries immediately,
refuting the claim that the broadcaster waits the fixed backoff interval
before re-querying after a fetch failure. -/
theorem broadcaster_fetch_error_no_backoff_cx :
    bEnvFetchErr.fetchRes = none ∧
    ¬ SleepKind.retryInterval ∈ (broadcastIteration 0 10 bEnvFetchErr bState0).sleeps := by
  decide

/-- C3 amended: in every broadcaster iteration whose event fetch fails, the
iteration performs no sleep, leaves the loop state unchanged, and continues
with the next iteration (the loop does not terminate). -/
theorem broadcaster_fetch_error_immediate_retry (pubKey N : Nat) (env : BIterEnv)
    (s : BIterState) (h : env.fetchRes = none) :
    (broadcastIteration pubKey N env s).sleeps = [] ∧
    (broadcastIteration pubKey N env s).state = s ∧
    (broadcastIteration pubKey N env s).control = LoopControl.next := by
  simp [broadcastIteration, h]

/-- C3 witness: the amended theorem applied at the concrete fetch-error
environment. -/
theorem broadcaster_fetch_error_immediate_retry_witness :
    (broadcastIteration 0 10 bEnvFetchErr bState0).sleeps = [] ∧
    (broadcastIteration 0 10 bEnvFetchErr bState0).state = bState0 ∧
    (broadcastIteration 0 10 bEnvFetchErr bState0).control = LoopControl.next :=
  broadcaster_fetch_error_immediate_retry 0 10 bEnvFetchErr bState0 rfl

/-- C8: if the collator's outer pre-check passes and the cached validator set
has exactly one member, the vote-count query is skipped entirely and the event
is marked EnoughVotesCollected (assuming the status update call succeeds). -/
theorem collator_single_validator_trivial_quorum
    (env : CollateEventEnv) (store : Store) (event : Event) (vs : List Nat)
    (hpre : env.preHeight ≤ event.expiredHeight)
    (hvs : env.validatorsRes = some vs)
    (h1 : vs.length = 1)
    (hup : env.collectedUpdateOk = true) :
    lookupM (collateForSingleEvent env store event).store event.challengeId =
      some EventStatus.EnoughVotesCollected ∧
    (collateForSingleEvent env store event).votesQueried = false ∧
    (collateForSingleEvent env store event).err = none := by
  have hlt : ¬ env.preHeight > event.expiredHeight := Nat.not_lt.mpr hpre
  simp [collateForSingleEvent, prepareEnoughValidVotesForEvent, preCheck, hlt, hvs, h1, hup,
    updateEventStatusByChallengeId, lookupM]

/-- C8 witness: the theorem applied to a concrete one-validator environment. -/
theorem collator_single_validator_trivial_quorum_witness :
    cEnvC8.preHeight ≤ evC8.expiredHeight ∧
    (lookupM (collateForSingleEvent cEnvC8 [(3, EventStatus.Open)] evC8).store 3 =
        some EventStatus.EnoughVotesCollected ∧
      (collateForSingleEvent cEnvC8 [(3, EventStatus.Open)] evC8).votesQueried = false ∧
      (collateForSingleEvent cEnvC8 [(3, EventStatus.Open)] evC8).err = none) :=
  ⟨by decide,
   collator_single_validator_trivial_quorum cEnvC8 [(3, EventStatus.Open)] evC8 [11]
     (by decide) rfl rfl rfl⟩

/-- C10: QueryCachedLatestValidators never writes the executor state: a
non-empty cache is returned as-is with no fresh query; an empty cache triggers
the fresh query whose result is returned while the cache field stays
unchanged; only the update loop writes the cache. -/
theorem query_cached_validators_frame (s : ExecutorState) (fresh : Option (List Nat)) :
    (QueryCachedLatestValidators s fresh).state = s ∧
    (s.validators ≠ [] →
      (QueryCachedLatestValidators s fresh).res = some s.validators ∧
      (QueryCachedLatestValidators s fresh).freshQueried = false) ∧
    (s.validators = [] →
      (QueryCachedLatestValidators s fresh).freshQueried = true ∧
      (QueryCachedLatestValidators s fresh).res = fresh) ∧
    (∀ vs, (updateCachedValidatorsStep s (some vs)).validators = vs) ∧
    updateCachedValidatorsStep s none = s := by
  by_cases h : s.validators = []
  · cases fresh <;>
      simp [QueryCachedLatestValidators, updateCachedValidatorsStep, h]
  · have hlen : s.validators.length ≠ 0 := by
      simpa [List.length_eq_zero] using h
    cases fresh <;>
      simp [QueryCachedLatestValidators, updateCachedValidatorsStep, h, hlen]

/-- C10 witness: the theorem applied at a populated cache and at an empty
cache. -/
theorem query_cached_validators_frame_witness :
    (QueryCachedLatestValidators { validators := [5] } none).state = { validators := [5] } ∧
    (QueryCachedLatestValidators { validators := [5] } none).res = some [5] ∧
    (QueryCachedLatestValidators { validators := [5] } none).freshQueried = false ∧
    (QueryCachedLatestValidators { validators := [] } (some [8])).res = some [8] ∧
    (QueryCachedLatestValidators { validators := [] } (some [8])).state.validators = [] :=
  ⟨(query_cached_validators_frame { validators := [5] } none).1,
   ((query_cached_validators_frame { validators := [5] } none).2.1 (by decide)).1,
   ((query_cached_validators_frame { validators := [5] } none).2.1 (by decide)).2,
   ((query_cached_validators_frame { validators := [] } (some [8])).2.2.1 rfl).2,
   congrArg ExecutorState.validators (query_cached_validators_frame { validators := [] } (some [8])).1⟩

/-- A zero vote used to build concrete queried-vote lists. -/
def vote0 : Vote := { eventType := 0, eventHash := (0, 0, 0), pubKey := 0 }

/-- Probe event with a far-away expiry, used with passing pre-checks. -/
def evC1 : Event := { challengeId := 1, height := 0, expiredHeight := 100 }

/-- Collator environment supplying exactly k queried votes for the event, with
an inner pre-check that passes. -/
def quorumProbeEnv (k : Nat) : CollateEventEnv :=
  { preHeight := 0, innerHeight := 0, validatorsRes := none, expiredUpdateOk := true
    queryVotesRes := some (List.replicate k vote0), collectedUpdateOk := true }

/-- Concrete collator environment for the quorum-threshold witness: four
validators, three queried votes. -/
def cEnvC1 : CollateEventEnv :=
  { preHeight := 50, innerHeight := 50, validatorsRes := some [0, 1, 2, 3]
    expiredUpdateOk := true, queryVotesRes := some (List.replicate 3 vote0)
    collectedUpdateOk := true }

set_option maxRecDepth 10000 in
/-- C1: when the inner pre-check passes and the vote query succeeds, the
collator counting step succeeds exactly when the queried vote count strictly
exceeds len(validators)*2/3 (Go integer division, i.e. floor(2n/3)); and on
validator-set sizes 2, 3, 4, 5, 10 and 100 the minimal count for which the
step succeeds is 2, 3, 3, 4, 7 and 67 respectively. -/
theorem collator_quorum_threshold
    (env : CollateEventEnv) (store : Store) (event : Event) (validators : List Nat)
    (votes : List Vote)
    (hn : 1 < validators.length)
    (hpre : env.innerHeight ≤ event.expiredHeight)
    (hq : env.queryVotesRes = some votes) :
    ((queryMoreThanTwoThirdVotesForEvent env store event validators).err = none ↔
      votes.length > validators.length * 2 / 3) ∧
    (∀ p ∈ [(2, 2), (3, 3), (4, 3), (5, 4), (10, 7), (100, 67)], ∀ k ≤ 100,
      ((queryMoreThanTwoThirdVotesForEvent (quorumProbeEnv k) [] evC1
          (List.replicate p.1 0)).err = none ↔ p.2 ≤ k)) := by
  have hlt : ¬ env.innerHeight > event.expiredHeight := Nat.not_lt.mpr hpre
  constructor
  · simp only [queryMoreThanTwoThirdVotesForEvent, preCheck, if_neg hlt, hq]
    split_ifs with h <;> simp [h]
  · decide

/-- C1 witness: the threshold equivalence applied at four validators and three
queried votes. -/
theorem collator_quorum_threshold_witness :
    (1 < [0, 1, 2, 3].length ∧ cEnvC1.innerHeight ≤ evC1.expiredHeight) ∧
    ((queryMoreThanTwoThirdVotesForEvent cEnvC1 [] evC1 [0, 1, 2, 3]).err = none ↔
      (List.replicate 3 vote0).length > [0, 1, 2, 3].length * 2 / 3) :=
  ⟨⟨by decide, by decide⟩,
   (collator_quorum_threshold cEnvC1 [] evC1 [0, 1, 2, 3] (List.replicate 3 vote0)
     (by decide) (by decide) rfl).1⟩

/-- broadcastForSingleEvent leaves the store and the cache untouched whenever
the event has not expired at the cached height. -/
theorem broadcastForSingleEvent_noexp (env : BroadcastEventEnv) (store : Store)
    (cache : List (Nat × Vote)) (v : Vote) (event : Event)
    (h : env.currentHeight ≤ event.expiredHeight) :
    (broadcastForSingleEvent env store cache v event).cache = cache ∧
    (broadcastForSingleEvent env store cache v event).store = store := by
  have hlt : ¬ env.currentHeight > event.expiredHeight := Nat.not_lt.mpr h
  simp only [broadcastForSingleEvent, preCheck, if_neg hlt]
  cases env.broadcastOk <;> simp

/-- C4: on a cache miss with a failing persist, a Duplicate-classified failure
behaves exactly like a success (the signed vote is cached and handed to the
broadcast step, and on an unexpired event it is in the cache afterwards),
while any other persist failure leaves the cache and store untouched, skips
the broadcast, and leaves the challenge id uncached so the next iteration
retries. -/
theorem broadcaster_persist_error_paths
    (pubKey : Nat) (env : BroadcastEventEnv) (store : Store) (cache : List (Nat × Vote))
    (event : Event) (msg : String)
    (hmiss : lookupM cache event.challengeId = none)
    (hres : env.persistRes = some msg) :
    (strContains msg ("Duplicate") = true →
      handleEvent pubKey env store cache event =
        handleEvent pubKey { env with persistRes := none } store cache event ∧
      (handleEvent pubKey env store cache event).passedToBroadcast =
        some (mkLocalVote pubKey event) ∧
      (env.currentHeight ≤ event.expiredHeight →
        lookupM (handleEvent pubKey env store cache event).cache event.challengeId =
          some (mkLocalVote pubKey event))) ∧
    (strContains msg ("Duplicate") = false →
      (handleEvent pubKey env store cache event).cache = cache ∧
      (handleEvent pubKey env store cache event).store = store ∧
      (handleEvent pubKey env store cache event).passedToBroadcast = none ∧
      (handleEvent pubKey env store cache event).signed = true ∧
      lookupM (handleEvent pubKey env store cache event).cache event.challengeId = none) := by
  constructor
  · intro hdup
    refine ⟨?_, ?_, ?_⟩
    · simp [handleEvent, constructVoteAndSign, hmiss, hres, hdup, broadcastForSingleEvent,
        preCheck]
    · simp [handleEvent, constructVoteAndSign, hmiss, hres, hdup, mkLocalVote]
    · intro hexp
      have hc := broadcastForSingleEvent_noexp env store
        ((event.challengeId, mkLocalVote pubKey event) :: cache)
        (mkLocalVote pubKey event) event hexp
      simp [handleEvent, constructVoteAndSign, hmiss, hres, hdup, mkLocalVote, SignVote] at hc ⊢
      simp [hc.1, lookupM]
  · intro hdup
    simp [handleEvent, constructVoteAndSign, hmiss, hres, hdup]

/-- Probe event for the persist-error paths. -/
def evC4 : Event := { challengeId := 4, height := 0, expiredHeight := 300 }

/-- Broadcaster per-event environment whose persist fails with a Duplicate
message. -/
def bEnvDup : BroadcastEventEnv :=
  { persistRes := some ("Duplicate entry"), currentHeight := 10, updateOk := true
    broadcastOk := true }

/-- C4 witness: the theorem applied at a concrete Duplicate-failing persist on
an unexpired event. -/
theorem broadcaster_persist_error_paths_witness :
    (lookupM ([] : List (Nat × Vote)) evC4.challengeId = none ∧
      strContains ("Duplicate entry") ("Duplicate") = true) ∧
    (handleEvent 0 bEnvDup [] [] evC4 =
        handleEvent 0 { bEnvDup with persistRes := none } [] [] evC4 ∧
      (handleEvent 0 bEnvDup [] [] evC4).passedToBroadcast = some (mkLocalVote 0 evC4) ∧
      lookupM (handleEvent 0 bEnvDup [] [] evC4).cache evC4.challengeId =
        some (mkLocalVote 0 evC4)) :=
  ⟨⟨rfl, by decide⟩,
   by
     have h := (broadcaster_persist_error_paths 0 bEnvDup [] [] evC4 ("Duplicate entry")
       rfl rfl).1 (by decide)
     exact ⟨h.1, h.2.1, h.2.2 (by decide)⟩⟩

/-- The broadcaster inner loop handles every fetched event: its handled count
equals the length of the fetched list no matter which per-event outcomes
occur. -/
theorem runEventLoop_handled (pubKey : Nat) (eventEnv : Nat → BroadcastEventEnv) :
    ∀ (events : List Event) (idx : Nat) (store : Store) (cache : List (Nat × Vote)),
      (runEventLoop pubKey eventEnv idx store cache events).handled = events.length := by
  intro events
  induction events with
  | nil => intro idx store cache; rfl
  | cons e rest ih =>
      intro idx store cache
      simp [runEventLoop, ih]

/-- The collator inner loop handles every fetched event. -/
theorem runCollateEvents_handled (eventEnv : Nat → CollateEventEnv) :
    ∀ (events : List Event) (idx : Nat) (store : Store),
      (runCollateEvents eventEnv idx store events).handled = events.length := by
  intro events
  induction events with
  | nil => intro idx store; rfl
  | cons e rest ih =>
      intro idx store
      simp [runCollateEvents, ih]

/-- C9: in both loops, whenever the fetch succeeds, every fetched event is
handled (errors on one event never abort the siblings) and the loop body ends
with the continue signal (the loop never terminates). -/
theorem event_errors_never_abort_iteration
    (pubKey N : Nat) (benv : BIterEnv) (bs : BIterState) (cenv : CIterEnv) (store : Store)
    (bevents cevents : List Event)
    (hbf : benv.fetchRes = some bevents)
    (hcf : cenv.fetchRes = some cevents) :
    (broadcastIteration pubKey N benv bs).handled = bevents.length ∧
    (broadcastIteration pubKey N benv bs).control = LoopControl.next ∧
    (collateIteration cenv store).handled = cevents.length ∧
    (collateIteration cenv store).control = LoopControl.next := by
  refine ⟨?_, ?_, ?_, ?_⟩
  · simp only [broadcastIteration, hbf]
    split_ifs with h h2 <;> simp [runEventLoop_handled, h]
  · simp only [broadcastIteration, hbf]
    split_ifs <;> rfl
  · simp only [collateIteration, hcf]
    split_ifs with h
    · simpa using h.symm
    · simp [runCollateEvents_handled]
  · simp only [collateIteration, hcf]
    split_ifs <;> rfl

/-- Broadcaster iteration environment for the independence witness: two
events, the first of which fails its persist with a non-duplicate error. -/
def bEnvC9 : BIterEnv :=
  { fetchRes := some [evC4, evC1]
    eventEnv := fun i =>
      if i = 0 then
        { persistRes := some ("connection refused"), currentHeight := 10, updateOk := true
          broadcastOk := true }
      else bEnvDefault }

/-- Collator iteration environment for the independence witness: one event
whose vote query fails. -/
def cEnvC9 : CIterEnv :=
  { fetchRes := some [evC1]
    eventEnv := fun _ =>
      { preHeight := 0, innerHeight := 0, validatorsRes := some [0, 1, 2]
        expiredUpdateOk := true, queryVotesRes := none, collectedUpdateOk := true } }

/-- C9 witness: the theorem applied at iterations containing failing events. -/
theorem event_errors_never_abort_iteration_witness :
    (broadcastIteration 0 10 bEnvC9 bState0).handled = 2 ∧
    (broadcastIteration 0 10 bEnvC9 bState0).control = LoopControl.next ∧
    (collateIteration cEnvC9 []).handled = 1 ∧
    (collateIteration cEnvC9 []).control = LoopControl.next :=
  event_errors_never_abort_iteration 0 10 bEnvC9 bState0 cEnvC9 [] [evC4, evC1] [evC1]
    rfl rfl

/-- lookupM is unchanged by erasing a different key. -/
theorem lookupM_eraseM_ne {α : Type} (m : List (Nat × α)) (k key : Nat) (h : k ≠ key) :
    lookupM (eraseM m k) key = lookupM m key := by
  induction m with
  | nil => rfl
  | cons p rest ih =>
      obtain ⟨a, b⟩ := p
      by_cases hak : a = k
      · subst hak
        simp [eraseM, lookupM, ih, h]
      · by_cases hakey : a = key
        · subst hakey
          simp [eraseM, lookupM, hak]
        · simp [eraseM, lookupM, hak, hakey, ih]

/-- broadcastForSingleEvent only ever touches the cache entry of its own
event, so lookups at any other key are unchanged. -/
theorem broadcastForSingleEvent_lookup_ne (env : BroadcastEventEnv) (store : Store)
    (cache : List (Nat × Vote)) (v : Vote) (event : Event) (cid : Nat)
    (h : event.challengeId ≠ cid) :
    lookupM (broadcastForSingleEvent env store cache v event).cache cid =
      lookupM cache cid := by
  by_cases hexp : env.currentHeight > event.expiredHeight
  · by_cases hup : env.updateOk
    · simp [broadcastForSingleEvent, preCheck, hexp, hup, lookupM_eraseM_ne _ _ _ h]
    · simp [broadcastForSingleEvent, preCheck, hexp, hup]
  · cases hbo : env.broadcastOk <;>
      simp [broadcastForSingleEvent, preCheck, hexp, hbo]

/-- handleEvent only ever touches the cache entry of its own event, so lookups
at any other key are unchanged. -/
theorem handleEvent_lookup_ne (pubKey : Nat) (env : BroadcastEventEnv) (store : Store)
    (cache : List (Nat × Vote)) (event : Event) (cid : Nat)
    (h : event.challengeId ≠ cid) :
    lookupM (handleEvent pubKey env store cache event).cache cid = lookupM cache cid := by
  cases hl : lookupM cache event.challengeId with
  | some v =>
      simp [handleEvent, hl, broadcastForSingleEvent_lookup_ne, h]
  | none =>
      cases hp : env.persistRes with
      | none =>
          simp [handleEvent, hl, hp, constructVoteAndSign,
            broadcastForSingleEvent_lookup_ne, lookupM, h]
      | some msg =>
          by_cases hdup : strContains msg ("Duplicate")
          · simp [handleEvent, hl, hp, hdup, constructVoteAndSign,
              broadcastForSingleEvent_lookup_ne, lookupM, h]
          · simp [handleEvent, hl, hp, hdup, constructVoteAndSign]

/-- On a cache hit for an unexpired event, handleEvent performs no signature
request and leaves the cache unchanged. -/
theorem handleEvent_cache_hit (pubKey : Nat) (env : BroadcastEventEnv) (store : Store)
    (cache : List (Nat × Vote)) (event : Event) (v : Vote)
    (hhit : lookupM cache event.challengeId = some v)
    (hexp : env.currentHeight ≤ event.expiredHeight) :
    (handleEvent pubKey env store cache event).signed = false ∧
    (handleEvent pubKey env store cache event).cache = cache := by
  have hc := broadcastForSingleEvent_noexp env store cache v event hexp
  simp [handleEvent, hhit, hc.1]

/-- Through the whole event loop, a cached vote for an unexpired challenge id
survives and no signature request is made for that id. -/
theorem runEventLoop_no_resign (pubKey : Nat) (eventEnv : Nat → BroadcastEventEnv)
    (cid : Nat) (v : Vote) :
    ∀ (events : List Event) (idx : Nat) (store : Store) (cache : List (Nat × Vote)),
      lookupM cache cid = some v →
      (∀ i, ∀ e ∈ events, e.challengeId = cid →
        (eventEnv i).currentHeight ≤ e.expiredHeight) →
      lookupM (runEventLoop pubKey eventEnv idx store cache events).cache cid = some v ∧
      ¬ cid ∈ (runEventLoop pubKey eventEnv idx store cache events).signedIds := by
  intro events
  induction events with
  | nil =>
      intro idx store cache hc _
      exact ⟨hc, by simp [runEventLoop]⟩
  | cons e rest ih =>
      intro idx store cache hc hexp
      have hrest : ∀ i, ∀ x ∈ rest, x.challengeId = cid →
          (eventEnv i).currentHeight ≤ x.expiredHeight :=
        fun i x hx hxc => hexp i x (List.mem_cons_of_mem _ hx) hxc
      by_cases he : e.challengeId = cid
      · have hhit : lookupM cache e.challengeId = some v := by rw [he]; exact hc
        have hstep := handleEvent_cache_hit pubKey (eventEnv idx) store cache e v hhit
          (hexp idx e (List.mem_cons_self e rest) he)
        have hc2 : lookupM (handleEvent pubKey (eventEnv idx) store cache e).cache cid =
            some v := by
          rw [hstep.2]; exact hc
        have hrec := ih (idx + 1) (handleEvent pubKey (eventEnv idx) store cache e).store
          (handleEvent pubKey (eventEnv idx) store cache e).cache hc2 hrest
        constructor
        · simpa [runEventLoop] using hrec.1
        · simp [runEventLoop, hstep.1, hrec.2]
      · have hc2 : lookupM (handleEvent pubKey (eventEnv idx) store cache e).cache cid =
            some v := by
          rw [handleEvent_lookup_ne pubKey (eventEnv idx) store cache e cid he]; exact hc
        have hrec := ih (idx + 1) (handleEvent pubKey (eventEnv idx) store cache e).store
          (handleEvent pubKey (eventEnv idx) store cache e).cache hc2 hrest
        constructor
        · simpa [runEventLoop] using hrec.1
        · cases hsg : (handleEvent pubKey (eventEnv idx) store cache e).signed <;>
            simp [runEventLoop, hsg, hrec.2, Ne.symm he]

/-- Probe event for the re-sign counterexample. -/
def evC6 : Event := { challengeId := 1, height := 0, expiredHeight := 1000 }

/-- Broadcaster iteration environment whose persist fails with a
non-duplicate error. -/
def bEnvSignFail : BIterEnv :=
  { fetchRes := some [evC6]
    eventEnv := fun _ =>
      { persistRes := some ("db down"), currentHeight := 10, updateOk := true
        broadcastOk := true } }

/-- Broadcaster iteration environment whose persist succeeds. -/
def bEnvSignOk : BIterEnv :=
  { fetchRes := some [evC6]
    eventEnv := fun _ => bEnvDefault }

/-- C6 counterexample: with CacheClearIterations = 10 and no cache clear in
between, an iteration whose persist fails with a non-duplicate error performs
a signature request for challenge id 1 and leaves the cache unpopulated, and
the following iteration performs a second signature request for the same id —
refuting the claim that at most one sign-and-persist happens per challenge id
between two cache clears. -/
theorem broadcaster_second_sign_between_clears_cx :
    (broadcastIteration 0 10 bEnvSignFail bState0).signedIds = [1] ∧
    (broadcastIteration 0 10 bEnvSignOk
      (broadcastIteration 0 10 bEnvSignFail bState0).state).signedIds = [1] ∧
    (broadcastIteration 0 10 bEnvSignFail bState0).state.loopCount = 1 ∧
    (broadcastIteration 0 10 bEnvSignOk
      (broadcastIteration 0 10 bEnvSignFail bState0).state).state.loopCount = 2 := by
  decide

/-- C6 amended: once the cache holds a vote for a challenge id, a broadcaster
iteration performs no signature request for that id and — provided no fetched
event with that id is expired at its pre-check and the iteration is not the
cache-clearing one — the cached vote survives the iteration unchanged. -/
theorem broadcaster_cached_vote_reused
    (pubKey N : Nat) (env : BIterEnv) (s : BIterState) (cid : Nat) (v : Vote)
    (events : List Event)
    (hfetch : env.fetchRes = some events)
    (hcache : lookupM s.cache cid = some v)
    (hnoexp : ∀ i, ∀ e ∈ events, e.challengeId = cid →
      (env.eventEnv i).currentHeight ≤ e.expiredHeight)
    (hnoclear : s.loopCount + 1 ≠ N) :
    ¬ cid ∈ (broadcastIteration pubKey N env s).signedIds ∧
    lookupM (broadcastIteration pubKey N env s).state.cache cid = some v := by
  have h := runEventLoop_no_resign pubKey env.eventEnv cid v events 0 s.store s.cache
    hcache hnoexp
  simp only [broadcastIteration, hfetch]
  split_ifs with hlen
  · simp [hcache]
  · simp [hnoclear, h.1, h.2]

/-- The locally signed vote cached for the probe event. -/
def vWit : Vote := mkLocalVote 0 evC6

/-- Broadcaster state already holding the cached vote for challenge id 1. -/
def sWit : BIterState := { cache := [(1, vWit)], store := [], loopCount := 0 }

/-- C6 witness: the amended theorem applied at a concrete cached vote. -/
theorem broadcaster_cached_vote_reused_witness :
    lookupM sWit.cache 1 = some vWit ∧
    (¬ 1 ∈ (broadcastIteration 0 10 bEnvSignOk sWit).signedIds ∧
      lookupM (broadcastIteration 0 10 bEnvSignOk sWit).state.cache 1 = some vWit) :=
  ⟨rfl,
   broadcaster_cached_vote_reused 0 10 bEnvSignOk sWit 1 vWit [evC6] rfl rfl
     (fun i e he hec => by
       have he2 : e = evC6 := by simpa using he
       subst he2
       show (0 : Nat) ≤ 1000
       exact Nat.zero_le 1000)
     (by decide)⟩

/-- How one completed broadcaster iteration advances the clear counter and
when it clears the cache. -/
theorem broadcastIteration_completed (pubKey N : Nat) (env : BIterEnv) (t : BIterState)
    (l : List Event) (hf : env.fetchRes = some l) (hne : l ≠ []) :
    (broadcastIteration pubKey N env t).state.loopCount =
      (if t.loopCount + 1 = N then 0 else t.loopCount + 1) ∧
    (t.loopCount + 1 = N → (broadcastIteration pubKey N env t).state.cache = []) := by
  have hlen : ¬ l.length = 0 := by simpa [List.length_eq_zero] using hne
  constructor
  · simp [broadcastIteration, hf, hlen]
  · intro h
    simp [broadcastIteration, hf, hlen, h]

/-- Step law for the remainder counter. -/
theorem mod_succ_step (k N : Nat) (hN : 0 < N) :
    (k + 1) % N = if k % N + 1 = N then 0 else k % N + 1 := by
  have h1 : (k + 1) % N = (k % N + 1) % N := (Nat.mod_add_mod k N 1).symm
  rw [h1]
  by_cases h : k % N + 1 = N
  · rw [if_pos h, h, Nat.mod_self]
  · have hlt : k % N + 1 < N :=
      lt_of_le_of_ne (Nat.succ_le_of_lt (Nat.mod_lt k hN)) h
    rw [if_neg h, Nat.mod_eq_of_lt hlt]

/-- C7: with N = CacheClearIterations positive and every iteration completed
(each fetch succeeds with a non-empty list), the counter after k completed
iterations from zero is k mod N, and whenever k+1 is a multiple of N the
(k+1)-th iteration ends with the whole cache cleared — so the unconditional
clear recurs every N completed iterations. -/
theorem broadcaster_cache_clear_period
    (pubKey N : Nat) (envs : Nat → BIterEnv) (s : BIterState)
    (hN : 0 < N) (h0 : s.loopCount = 0)
    (hc : ∀ i, ∃ l, (envs i).fetchRes = some l ∧ l ≠ []) :
    ∀ k, (runBroadcastIters pubKey N envs s k).loopCount = k % N ∧
      ((k + 1) % N = 0 → (runBroadcastIters pubKey N envs s (k + 1)).cache = []) := by
  have main : ∀ k, (runBroadcastIters pubKey N envs s k).loopCount = k % N := by
    intro k
    induction k with
    | zero => simpa [runBroadcastIters] using h0
    | succ k ih =>
        obtain ⟨l, hf, hne⟩ := hc k
        have hstep := broadcastIteration_completed pubKey N (envs k)
          (runBroadcastIters pubKey N envs s k) l hf hne
        simp only [runBroadcastIters]
        rw [hstep.1, ih, ← mod_succ_step k N hN]
  intro k
  refine ⟨main k, fun hdiv => ?_⟩
  obtain ⟨l, hf, hne⟩ := hc k
  have hstep := broadcastIteration_completed pubKey N (envs k)
    (runBroadcastIters pubKey N envs s k) l hf hne
  have hk : (runBroadcastIters pubKey N envs s k).loopCount + 1 = N := by
    rw [main k]
    by_cases h : k % N + 1 = N
    · exact h
    · exfalso
      have hm := mod_succ_step k N hN
      rw [if_neg h] at hm
      rw [hm] at hdiv
      exact Nat.succ_ne_zero _ hdiv
  simp only [runBroadcastIters]
  exact hstep.2 hk

/-- Constant environment sequence whose every iteration completes. -/
def bEnvsC7 : Nat → BIterEnv := fun _ => bEnvSignOk

/-- C7 witness: the theorem applied with N = 2 after three completed
iterations: the counter is 3 mod 2 and the fourth iteration clears the
cache. -/
theorem broadcaster_cache_clear_period_witness :
    0 < 2 ∧
    ((runBroadcastIters 0 2 bEnvsC7 bState0 3).loopCount = 3 % 2 ∧
      ((3 + 1) % 2 = 0 → (runBroadcastIters 0 2 bEnvsC7 bState0 (3 + 1)).cache = [])) :=
  ⟨by decide,
   broadcaster_cache_clear_period 0 2 bEnvsC7 bState0 (by decide) rfl
     (fun i => ⟨[evC6], rfl, by decide⟩) 3⟩

end Greenfield
